import Mathlib

/-!
Verification development for the RideConnect driver-matching core
(project/app/services/matching_service.py, calendar_service.py,
pricing_service.py and the model methods of project/app/models.py).

Conventions of the shallow embedding:
* instants (datetimes) are integers — seconds since an arbitrary epoch for
  offer expiry and cancellation times, minutes since an arbitrary epoch for
  calendar arithmetic (the Python code compares datetimes; only order and
  differences matter);
* Python `Decimal` amounts are rationals (`ℚ`);
* Django rows are plain structures, a mutating method becomes a function
  from the old state to the new state;
* a Python method that can raise returns `Except String`.
-/

namespace RideConnect

/-- Offer lifecycle statuses, from `RideMatchOffer.OFFER_STATUS_CHOICES` in
models.py. -/
inductive OfferStatus
  | pending
  | accepted
  | declined
  | expired
  | withdrawn
deriving DecidableEq, Repr

/-- Pre-booked ride statuses, from `PreBookedRide.BOOKING_STATUS_CHOICES` in
models.py, plus `unmatched`, which `_create_next_batch_offers` assigns even
though it is not one of the declared choices (Django does not enforce choices
on save). -/
inductive RideStatus
  | pending
  | confirmed
  | driver_assigned
  | cancelled
  | completed
  | no_show
  | unmatched
deriving DecidableEq, Repr

/-- One `RideMatchOffer` row (models.py).  Only the fields the matching
service reads or writes are kept.  Offer ids are database-assigned; the model
carries them explicitly. -/
structure RideMatchOffer where
  id : Nat
  driver_id : Nat
  status : OfferStatus
  expires_at : Int
  responded_at : Option Int
  base_fare : ℚ
  bonus_amount : ℚ
  total_earnings : ℚ
  decline_reason : String
deriving DecidableEq, Repr

/-- `RideMatchOffer.is_expired` (models.py): `timezone.now() > self.expires_at`,
a strict comparison. -/
def RideMatchOffer.is_expired (o : RideMatchOffer) (now : Int) : Bool :=
  decide (now > o.expires_at)

/-- The state handled by `MatchingService.handle_offer_response`: one
pre-booked ride row together with all of its match offers. -/
structure MatchState where
  ride_status : RideStatus
  assigned_driver : Option Nat
  offers : List RideMatchOffer
deriving DecidableEq, Repr

/-- One `DriverCalendar` row (models.py).  `max_rides` and
`current_bookings` are the declared model fields used by `book_slot` and
`release_slot`.  `max_bookings` and `total_bookings` are NOT model fields:
they are plain instance attributes that calendar_service.py and the views
assign dynamically and that `check_driver_availability` reads; `none` models
the Python value `None` (and an attribute never assigned behaves as falsy in
the guard that reads it). -/
structure DriverCalendar where
  is_available : Bool
  start_time : Int
  end_time : Int
  break_slots : List (Int × Int)
  max_rides : Int
  current_bookings : Int
  max_bookings : Option Int
  total_bookings : Int
deriving DecidableEq, Repr

/-- `DriverCalendar.is_fully_booked` (models.py):
`current_bookings >= max_rides`. -/
def DriverCalendar.is_fully_booked (c : DriverCalendar) : Bool :=
  decide (c.current_bookings ≥ c.max_rides)

/-- `DriverCalendar.book_slot` (models.py): raises `ValueError` on a full
entry, otherwise increments `current_bookings` by one. -/
def DriverCalendar.book_slot (c : DriverCalendar) : Except String DriverCalendar :=
  if c.is_fully_booked then Except.error "Calendar entry is fully booked"
  else Except.ok { c with current_bookings := c.current_bookings + 1 }

/-- `DriverCalendar.release_slot` (models.py): decrements `current_bookings`
when it is positive, otherwise does nothing. -/
def DriverCalendar.release_slot (c : DriverCalendar) : DriverCalendar :=
  if c.current_bookings > 0 then { c with current_bookings := c.current_bookings - 1 }
  else c

/-- One step of a booking history: a `book_slot` call (a raised `ValueError`
leaves the row unchanged) or a `release_slot` call. -/
inductive SlotOp
  | book
  | release
deriving DecidableEq, Repr

/-- Apply one slot operation to a calendar row. -/
def applySlotOp (c : DriverCalendar) (op : SlotOp) : DriverCalendar :=
  match op with
  | SlotOp.book =>
      match c.book_slot with
      | Except.ok c2 => c2
      | Except.error _ => c
  | SlotOp.release => c.release_slot

/-- Apply a whole sequence of `book_slot` / `release_slot` calls. -/
def applySlotOps (c : DriverCalendar) (ops : List SlotOp) : DriverCalendar :=
  ops.foldl applySlotOp c

/-- `PricingService.CANCELLATION_POLICIES` (pricing_service.py): the rider
policy fee for the 24h+ band. -/
def RIDER_FEE_24H : ℚ := 0

/-- Rider policy fee for the 2h–24h band (`Decimal('5.00')`). -/
def RIDER_FEE_2H : ℚ := 5

/-- Rider policy fare fraction below 2h (`Decimal('0.50')`). -/
def RIDER_FRACTION_0H : ℚ := 1 / 2

/-- Driver cancellation penalty (`Decimal('10.00')`). -/
def DRIVER_PENALTY : ℚ := 10

/-- `PricingService.calculate_cancellation_fee` (pricing_service.py).
`pickup` and `now` are instants in seconds; the code computes
`hours_until_pickup = (booking.pickup_datetime - timezone.now()).total_seconds() / 3600`
and compares it against the 24-hour and 2-hour policy bands; a driver
cancellation short-circuits to the fixed penalty before that read.  NOTE:
`models.PreBookedRide` spells the pickup field `scheduled_pickup_time` and
defines no `pickup_datetime`, so on the model as declared the rider branch
raises `AttributeError` instead of returning a fee; `pickup` here models the
intended pickup instant of the booking. -/
def calculate_cancellation_fee (cancelled_by : String) (pickup now : Int)
    (estimated_fare : ℚ) : ℚ :=
  if cancelled_by = "driver" then DRIVER_PENALTY
  else
    let hours_until_pickup : ℚ := ((pickup : ℚ) - (now : ℚ)) / 3600
    if hours_until_pickup ≥ 24 then RIDER_FEE_24H
    else if hours_until_pickup ≥ 2 then RIDER_FEE_2H
    else estimated_fare * RIDER_FRACTION_0H

/-- The incentive computed inside `MatchingService.create_match_offers`
(matching_service.py): 15% of the base fare for a `high` priority ride, 25%
for `urgent`, zero otherwise. -/
def offerIncentive (priority : String) (base_fare : ℚ) : ℚ :=
  if priority = "high" then base_fare * (15 / 100)
  else if priority = "urgent" then base_fare * (25 / 100)
  else 0

/-- `MatchingService.create_match_offers` (matching_service.py), restricted to
the offer rows it persists.  `priority` and `estimated_fare` come from the
booking; `driver_ids` are the scored drivers (one offer row per driver, the
database-assigned offer id modelled by the driver id, one offer per driver
being unique by the `unique_together` constraint); `expires_at` is
`timezone.now() + timedelta(hours=offer_duration_hours)` computed once before
the loop, and `offered_at` is the same creation instant `now`.  The Python
parameter `offer_duration_hours` defaults to 2. -/
def create_match_offers (priority : String) (estimated_fare : ℚ)
    (driver_ids : List Nat) (now : Int) (offer_duration_hours : Int) :
    List RideMatchOffer :=
  let expires_at := now + offer_duration_hours * 3600
  driver_ids.map fun d =>
    { id := d
      driver_id := d
      status := OfferStatus.pending
      expires_at := expires_at
      responded_at := none
      base_fare := estimated_fare
      bonus_amount := offerIncentive priority estimated_fare
      total_earnings := estimated_fare + offerIncentive priority estimated_fare
      decline_reason := "" }

/-- The cascade performed by `RideMatchOffer.accept` (models.py): the accepted
offer row is saved with status `accepted` and a response timestamp, and every
OTHER offer of the same ride whose status is `pending` is bulk-updated to
`withdrawn`. -/
def acceptCascade (offers : List RideMatchOffer) (oid : Nat) (now : Int) :
    List RideMatchOffer :=
  offers.map fun o =>
    if o.id = oid then { o with status := OfferStatus.accepted, responded_at := some now }
    else if o.status = OfferStatus.pending then { o with status := OfferStatus.withdrawn }
    else o

/-- The second bulk update in the accept branch of
`MatchingService.handle_offer_response` (matching_service.py): every offer of
the ride other than the accepted one that is still `pending` is set to
`expired`.  It runs after `RideMatchOffer.accept` has already withdrawn all
such offers, so it finds none. -/
def expireRemainingPending (offers : List RideMatchOffer) (oid : Nat) :
    List RideMatchOffer :=
  offers.map fun o =>
    if o.id ≠ oid ∧ o.status = OfferStatus.pending then { o with status := OfferStatus.expired }
    else o

/-- `RideMatchOffer.decline` (models.py) applied through the offer list: the
responded offer row is saved with status `declined`, a response timestamp and
the recorded reason. -/
def declineOffer (offers : List RideMatchOffer) (oid : Nat) (now : Int)
    (reason : String) : List RideMatchOffer :=
  offers.map fun o =>
    if o.id = oid then
      { o with status := OfferStatus.declined, responded_at := some now,
               decline_reason := reason }
    else o

/-- `MatchingService._create_next_batch_offers` (matching_service.py).  The
outcome of `find_best_matches` filtered to drivers without a prior offer is
passed in as `new_matches`; `create_match_offers` persists each new offer with
the default status `pending`.  When no new match exists the booking is saved
with status `unmatched`. -/
def _create_next_batch_offers (s : MatchState) (new_matches : List RideMatchOffer) :
    MatchState :=
  if new_matches.isEmpty then { s with ride_status := RideStatus.unmatched }
  else
    let created := new_matches.map fun o => { o with status := OfferStatus.pending }
    { s with offers := s.offers ++ created }

/-- Result of `MatchingService.handle_offer_response`: the post state, the
returned success flag, and whether `_create_next_batch_offers` was invoked. -/
structure ResponseOutcome where
  state : MatchState
  success : Bool
  rebatched : Bool
deriving DecidableEq, Repr

/-- `MatchingService.handle_offer_response` (matching_service.py).  The offer
is identified by `oid` among the ride's offers; `now` is `timezone.now()`;
`new_matches` stands for what `find_best_matches` would return inside
`_create_next_batch_offers` on the decline-exhaustion path.  The whole Python
method runs under `@transaction.atomic`, which this single-step state
transition models. -/
def handle_offer_response (s : MatchState) (oid : Nat) (accepted : Bool)
    (reason : String) (now : Int) (new_matches : List RideMatchOffer) :
    ResponseOutcome :=
  match s.offers.find? (fun o => o.id == oid) with
  | none => ⟨s, false, false⟩
  | some off =>
    if off.status ≠ OfferStatus.pending ∨ off.expires_at < now then
      ⟨s, false, false⟩
    else if accepted then
      if s.ride_status ≠ RideStatus.pending then
        ⟨{ s with offers := s.offers.map fun o =>
             if o.id = oid then { o with status := OfferStatus.expired } else o },
         false, false⟩
      else
        let offers1 := acceptCascade s.offers oid now
        let offers2 := expireRemainingPending offers1 oid
        ⟨{ ride_status := RideStatus.driver_assigned,
           assigned_driver := some off.driver_id,
           offers := offers2 },
         true, false⟩
    else
      let offers1 := declineOffer s.offers oid now reason
      let remaining := offers1.countP (fun o => o.status == OfferStatus.pending)
      if remaining = 0 then
        ⟨_create_next_batch_offers { s with offers := offers1 } new_matches, true, true⟩
      else
        ⟨{ s with offers := offers1 }, true, false⟩

/-- The at-most-one-winner state invariant: while the ride is still `pending`
no offer is accepted, and never is more than one offer accepted. -/
def OffersInv (s : MatchState) : Prop :=
  (s.ride_status = RideStatus.pending →
    ∀ o ∈ s.offers, o.status ≠ OfferStatus.accepted) ∧
  s.offers.countP (fun o => o.status == OfferStatus.accepted) ≤ 1

instance (s : MatchState) : Decidable (OffersInv s) := by
  unfold OffersInv
  infer_instance

/-- Calendar day of an instant given in minutes (`datetime.date()`). -/
def dateOf (t : Int) : Int := t / 1440

/-- Time of day, in minutes since midnight, of an instant given in minutes
(`datetime.time()`); `Int.emod` is non-negative here, like Python `%`. -/
def timeOf (t : Int) : Int := t % 1440

/-- A `PreBookedRide` row as seen by the conflict query of
`CalendarService._check_booking_conflicts`: the rides already assigned to the
driver being checked. -/
structure AssignedBooking where
  scheduled_pickup_time : Int
  estimated_duration_minutes : Int
  status : RideStatus
deriving DecidableEq, Repr

/-- `CalendarService._check_booking_conflicts` (calendar_service.py).  The
method builds
`timedelta(minutes=models.F('estimated_duration_minutes') + self.BUFFER_BETWEEN_RIDES)`
while constructing its query; `datetime.timedelta` rejects a Django
`CombinedExpression`, so the call raises `TypeError` before any row is
examined, whatever the arguments are. -/
def _check_booking_conflicts (_bookings : List AssignedBooking)
    (_pickup _duration_minutes : Int) : Except String Bool :=
  Except.error
    "TypeError: unsupported type for timedelta minutes component: CombinedExpression"

/-- The filter `_check_booking_conflicts` spells out in its queryset, as
written: a same-day ride of the driver in status `driver_assigned` or
`confirmed` whose pickup lies in the buffered window
`[pickup - 15, pickup + duration + 15]`, or which starts before that window
but has not ended 15 minutes before the requested pickup.  This is the
predicate the query would compute if the `timedelta` slip were fixed. -/
def bookingConflictAsWritten (bookings : List AssignedBooking)
    (pickup duration_minutes : Int) : Bool :=
  bookings.any fun b =>
    (b.status == RideStatus.driver_assigned || b.status == RideStatus.confirmed)
    && (dateOf b.scheduled_pickup_time == dateOf pickup)
    && (let start_window := pickup - 15
        let end_window := pickup + duration_minutes + 15
        (decide (start_window ≤ b.scheduled_pickup_time)
          && decide (b.scheduled_pickup_time ≤ end_window))
        || (decide (b.scheduled_pickup_time ≤ start_window)
          && decide (b.scheduled_pickup_time >
              start_window - (b.estimated_duration_minutes + 15))))

/-- `CalendarService._conflicts_with_break` (calendar_service.py): overlap of
the ride window with any declared break slot, on times of day. -/
def _conflicts_with_break (cal : DriverCalendar) (pickup duration_minutes : Int) :
    Bool :=
  let ride_start := timeOf pickup
  let ride_end := timeOf (pickup + duration_minutes)
  cal.break_slots.any fun bs =>
    !(decide (ride_end ≤ bs.1) || decide (ride_start ≥ bs.2))

/-- The booking-limit guard of `check_driver_availability` as written:
`calendar.max_bookings and calendar.total_bookings >= calendar.max_bookings`,
with Python truthiness on `max_bookings`. -/
def bookingLimitReached (cal : DriverCalendar) : Bool :=
  match cal.max_bookings with
  | none => false
  | some m => decide (m ≠ 0) && decide (cal.total_bookings ≥ m)

/-- `CalendarService.check_driver_availability` (calendar_service.py).
`entry` is the `DriverCalendar` row for the pickup date when one exists;
`bookings` are the driver's assigned rides; `pickup` is the pickup instant in
minutes.  The first three gates return `(False, reason)` as documented (the
Python reason strings interpolate the calendar times; the constant prefixes
are kept here); once they pass, the conflict gate is reached and
`_check_booking_conflicts` raises. -/
def check_driver_availability (entry : Option DriverCalendar)
    (bookings : List AssignedBooking) (pickup duration_minutes : Int) :
    Except String (Bool × Option String) :=
  match entry with
  | none => Except.ok (false, some "Driver has not set availability for this date")
  | some cal =>
    if cal.is_available = false then
      Except.ok (false, some "Driver is not available on this date")
    else if timeOf pickup < cal.start_time then
      Except.ok (false, some "Pickup time is before driver's start time")
    else if timeOf (pickup + duration_minutes) > cal.end_time then
      Except.ok (false, some "Ride would end after driver's end time")
    else do
      let conflict ← _check_booking_conflicts bookings pickup duration_minutes
      if conflict then
        Except.ok (false, some "Conflicts with existing booking")
      else if _conflicts_with_break cal pickup duration_minutes then
        Except.ok (false, some "Conflicts with driver's scheduled break")
      else if bookingLimitReached cal then
        Except.ok (false, some "Driver has reached booking limit for this date")
      else
        Except.ok (true, none)

/-- `math.radians`. -/
noncomputable def radians (x : ℝ) : ℝ := x * Real.pi / 180

/-- `math.atan2 y x`, the two-argument arctangent. -/
noncomputable def atan2 (y x : ℝ) : ℝ :=
  if 0 < x then Real.arctan (y / x)
  else if x < 0 ∧ 0 ≤ y then Real.arctan (y / x) + Real.pi
  else if x < 0 then Real.arctan (y / x) - Real.pi
  else if 0 < y then Real.pi / 2
  else if y < 0 then -(Real.pi / 2)
  else 0

/-- `MatchingService._haversine_distance` (matching_service.py): great-circle
distance in kilometres on an Earth of radius 6371 km. -/
noncomputable def _haversine_distance (lat1 lon1 lat2 lon2 : ℝ) : ℝ :=
  let lat1_rad := radians lat1
  let lat2_rad := radians lat2
  let delta_lat := radians (lat2 - lat1)
  let delta_lon := radians (lon2 - lon1)
  let a := Real.sin (delta_lat / 2) ^ 2 +
    Real.cos lat1_rad * Real.cos lat2_rad * Real.sin (delta_lon / 2) ^ 2
  6371 * (2 * atan2 (Real.sqrt a) (Real.sqrt (1 - a)))

/-- The band `_calculate_distance_score` is written to apply to the haversine
distance (matching_service.py lines 210-221): the piecewise score of a
distance in kilometres.  This is the intended computation the method never
reaches for a located driver (see `_calculate_distance_score`). -/
noncomputable def distanceBand (distance_km : ℝ) : ℝ :=
  if distance_km ≤ 1 then 100
  else if distance_km ≤ 3 then 90
  else if distance_km ≤ 5 then 75
  else if distance_km ≤ 10 then 50
  else if distance_km ≤ 15 then 25
  else 0

/-- `MatchingService._calculate_distance_score` (matching_service.py): 0 when
the driver has no known location.  Otherwise the code calls
`_haversine_distance(..., float(booking.pickup_lat), float(booking.pickup_lng))`,
and `PreBookedRide` defines `pickup_latitude` / `pickup_longitude` but no
`pickup_lat` / `pickup_lng` (only `DriverRide` has those), so the attribute
read raises `AttributeError` before any distance is computed or banded.  The
booking's actual coordinates are passed along unread, as in the source. -/
noncomputable def _calculate_distance_score (current_location : Option (ℝ × ℝ))
    (_pickup_latitude _pickup_longitude : ℝ) : Except String ℝ :=
  match current_location with
  | none => Except.ok 0
  | some _ =>
    Except.error "AttributeError: 'PreBookedRide' object has no attribute 'pickup_lat'"

/-- A single `applySlotOp` step never drives `current_bookings` negative. -/
theorem applySlotOp_nonneg (c : DriverCalendar) (op : SlotOp)
    (h : 0 ≤ c.current_bookings) : 0 ≤ (applySlotOp c op).current_bookings := by
  cases op with
  | book =>
    unfold applySlotOp DriverCalendar.book_slot
    by_cases hf : c.is_fully_booked
    · simp [hf]; omega
    · simp [hf]; omega
  | release =>
    unfold applySlotOp DriverCalendar.release_slot
    by_cases hp : c.current_bookings > 0
    · simp [hp]; omega
    · simp [hp]; omega

/-- An `applySlotOp` step never changes `max_rides`. -/
theorem applySlotOp_max_rides (c : DriverCalendar) (op : SlotOp) :
    (applySlotOp c op).max_rides = c.max_rides := by
  cases op with
  | book =>
    unfold applySlotOp DriverCalendar.book_slot
    by_cases hf : c.is_fully_booked
    · simp [hf]
    · simp [hf]
  | release =>
    unfold applySlotOp DriverCalendar.release_slot
    by_cases hp : c.current_bookings > 0
    · simp [hp]
    · simp [hp]

/-- C7: starting from `current_bookings ≤ max_rides`, `book_slot` on a full
entry returns the `ValueError` and changes nothing, on a non-full entry it
increments `current_bookings` by exactly one and keeps it within `max_rides`,
and `release_slot` also preserves the capacity bound. -/
theorem book_slot_capacity_invariant (c : DriverCalendar)
    (h : c.current_bookings ≤ c.max_rides) :
    (c.is_fully_booked = true →
      c.book_slot = Except.error "Calendar entry is fully booked") ∧
    (c.is_fully_booked = false →
      c.book_slot = Except.ok { c with current_bookings := c.current_bookings + 1 } ∧
      c.current_bookings + 1 ≤ c.max_rides) ∧
    (∀ c2, c.book_slot = Except.ok c2 →
      c2.current_bookings ≤ c2.max_rides ∧ c2.max_rides = c.max_rides) ∧
    (c.release_slot.current_bookings ≤ c.release_slot.max_rides ∧
      c.release_slot.max_rides = c.max_rides) := by
  refine ⟨?_, ?_, ?_, ?_⟩
  · intro hf
    unfold DriverCalendar.book_slot
    simp [hf]
  · intro hf
    unfold DriverCalendar.book_slot
    simp [hf]
    simp [DriverCalendar.is_fully_booked] at hf
    omega
  · intro c2 hok
    unfold DriverCalendar.book_slot at hok
    by_cases hf : c.is_fully_booked
    · simp [hf] at hok
    · simp [hf] at hok
      simp [DriverCalendar.is_fully_booked] at hf
      subst hok
      simp
      omega
  · unfold DriverCalendar.release_slot
    by_cases hp : c.current_bookings > 0
    · simp [hp]; omega
    · simp [hp]; omega

/-- C7 witness: capacity preservation evaluated on a concrete entry with 3 of
10 slots booked. -/
theorem book_slot_capacity_invariant_witness :
    (DriverCalendar.release_slot
        ⟨true, 420, 1320, [], 10, 3, none, 0⟩).current_bookings ≤
      (DriverCalendar.release_slot
        ⟨true, 420, 1320, [], 10, 3, none, 0⟩).max_rides ∧
    (DriverCalendar.release_slot
        ⟨true, 420, 1320, [], 10, 3, none, 0⟩).max_rides =
      (⟨true, 420, 1320, [], 10, 3, none, 0⟩ : DriverCalendar).max_rides :=
  (book_slot_capacity_invariant ⟨true, 420, 1320, [], 10, 3, none, 0⟩
    (by decide)).2.2.2

/-- C9: `release_slot` on a zero-count entry is a silent no-op, on a positive
count it decrements by exactly one, and any `book_slot`/`release_slot`
sequence starting from a non-negative count keeps the count non-negative. -/
theorem release_slot_never_negative (c : DriverCalendar)
    (h : 0 ≤ c.current_bookings) :
    (c.current_bookings = 0 → c.release_slot = c) ∧
    (0 < c.current_bookings →
      c.release_slot = { c with current_bookings := c.current_bookings - 1 }) ∧
    (∀ ops : List SlotOp, 0 ≤ (applySlotOps c ops).current_bookings) := by
  refine ⟨?_, ?_, ?_⟩
  · intro h0
    unfold DriverCalendar.release_slot
    simp [h0]
  · intro hp
    unfold DriverCalendar.release_slot
    simp [hp]
  · intro ops
    unfold applySlotOps
    induction ops generalizing c with
    | nil => simpa using h
    | cons op rest ih =>
      simpa using ih (applySlotOp c op) (applySlotOp_nonneg c op h)

/-- C9 witness: a concrete book/book/release/release/release history from a
zero-count entry stays non-negative. -/
theorem release_slot_never_negative_witness :
    0 ≤ (applySlotOps ⟨true, 420, 1320, [], 2, 0, none, 0⟩
      [SlotOp.book, SlotOp.book, SlotOp.release, SlotOp.release,
       SlotOp.release]).current_bookings :=
  (release_slot_never_negative ⟨true, 420, 1320, [], 2, 0, none, 0⟩
    (by decide)).2.2
    [SlotOp.book, SlotOp.book, SlotOp.release, SlotOp.release, SlotOp.release]

/-- The 24-hour band test of the fee code, reduced to integer seconds. -/
theorem hours_band_iff (pickup now : Int) (b : Int) :
    (((pickup : ℚ) - (now : ℚ)) / 3600 ≥ (b : ℚ) ↔ pickup - now ≥ b * 3600) := by
  rw [ge_iff_le, le_div_iff₀ (by norm_num : (0 : ℚ) < 3600)]
  constructor
  · intro hle
    have : ((b * 3600 : Int) : ℚ) ≤ ((pickup - now : Int) : ℚ) := by push_cast; linarith
    exact_mod_cast this
  · intro hle
    have : ((b * 3600 : Int) : ℚ) ≤ ((pickup - now : Int) : ℚ) := by exact_mod_cast hle
    push_cast at this
    linarith

/-- C3: the cancellation fee is 0 at 24 hours or more before pickup (the 24h
boundary included), the flat €5 between 2 (included) and 24 hours, half the
estimated fare under 2 hours, and a driver cancellation always pays the fixed
€10 penalty. -/
theorem cancellation_fee_policy (pickup now : Int) (fare : ℚ) :
    (calculate_cancellation_fee "driver" pickup now fare = 10) ∧
    (pickup - now ≥ 24 * 3600 →
      calculate_cancellation_fee "rider" pickup now fare = 0) ∧
    (pickup - now ≥ 2 * 3600 → pickup - now < 24 * 3600 →
      calculate_cancellation_fee "rider" pickup now fare = 5) ∧
    (pickup - now < 2 * 3600 →
      calculate_cancellation_fee "rider" pickup now fare = fare * (1 / 2)) := by
  have h24 := hours_band_iff pickup now 24
  have h2 := hours_band_iff pickup now 2
  refine ⟨?_, ?_, ?_, ?_⟩
  · simp [calculate_cancellation_fee, DRIVER_PENALTY]
  · intro hge
    simp only [calculate_cancellation_fee, if_neg (by decide : ¬("rider" = "driver"))]
    rw [if_pos (by norm_num at h24 ⊢; exact h24.mpr hge)]
    simp [RIDER_FEE_24H]
  · intro hge hlt
    simp only [calculate_cancellation_fee, if_neg (by decide : ¬("rider" = "driver"))]
    rw [if_neg ?hn, if_pos (by norm_num at h2 ⊢; exact h2.mpr hge)]
    · simp [RIDER_FEE_2H]
    · norm_num at h24 ⊢
      exact not_le.mp (fun hc => absurd (h24.mp hc) (by omega))
  · intro hlt
    simp only [calculate_cancellation_fee, if_neg (by decide : ¬("rider" = "driver"))]
    rw [if_neg ?hn1, if_neg ?hn2]
    · simp [RIDER_FRACTION_0H]
    case hn1 =>
      norm_num at h24 ⊢
      exact not_le.mp (fun hc => absurd (h24.mp hc) (by omega))
    case hn2 =>
      norm_num at h2 ⊢
      exact not_le.mp (fun hc => absurd (h2.mp hc) (by omega))

/-- C3 witness: the three boundaries and an inner point, on a €20 fare —
exactly 24h before pickup is free, exactly 2h costs the €5 flat fee, 2h less
one second costs half the fare, and a driver cancellation costs €10. -/
theorem cancellation_fee_policy_witness :
    calculate_cancellation_fee "driver" 86400 0 20 = 10 ∧
    calculate_cancellation_fee "rider" 86400 0 20 = 0 ∧
    calculate_cancellation_fee "rider" 7200 0 20 = 5 ∧
    calculate_cancellation_fee "rider" 7199 0 20 = 20 * (1 / 2) :=
  ⟨(cancellation_fee_policy 86400 0 20).1,
   (cancellation_fee_policy 86400 0 20).2.1 (by decide),
   (cancellation_fee_policy 7200 0 20).2.2.1 (by decide) (by decide),
   (cancellation_fee_policy 7199 0 20).2.2.2 (by decide)⟩

/-- C8: every offer `create_match_offers` persists carries the priority
incentive (15% of the base fare for `high`, 25% for `urgent`, none
otherwise), a `total_earnings` equal to base fare plus incentive, and
`expires_at` equal to the creation instant plus `offer_duration_hours` (the
Python default being 2 hours). -/
theorem create_match_offers_earnings_expiry (priority : String) (fare : ℚ)
    (driver_ids : List Nat) (now offer_duration_hours : Int) :
    ∀ o ∈ create_match_offers priority fare driver_ids now offer_duration_hours,
      o.base_fare = fare ∧
      o.bonus_amount =
        (if priority = "high" then fare * (15 / 100)
         else if priority = "urgent" then fare * (25 / 100) else 0) ∧
      o.total_earnings = o.base_fare + o.bonus_amount ∧
      o.expires_at = now + offer_duration_hours * 3600 ∧
      o.status = OfferStatus.pending := by
  intro o ho
  unfold create_match_offers at ho
  simp only [List.mem_map] at ho
  obtain ⟨d, _, rfl⟩ := ho
  refine ⟨rfl, rfl, rfl, rfl, rfl⟩

/-- Concrete offer row used by the C8 witness: the single offer of a â¬20
`high` priority ride offered at instant 0 for 2 hours. -/
def c8Offer : RideMatchOffer :=
  ⟨7, 7, OfferStatus.pending, 0 + 2 * 3600, none, 20, offerIncentive "high" 20,
   20 + offerIncentive "high" 20, ""⟩

/-- C8 witness: a €20 `high` priority ride with a 2-hour offer duration
yields `total_earnings = 20 + 20·15% = 23` and
`expires_at = offered_at + 7200` seconds for the single offered driver. -/
theorem create_match_offers_earnings_expiry_witness :
    (c8Offer.base_fare = 20 ∧
      c8Offer.bonus_amount =
        (if "high" = "high" then 20 * ((15 : ℚ) / 100)
         else if "high" = "urgent" then 20 * (25 / 100) else 0) ∧
      c8Offer.total_earnings = c8Offer.base_fare + c8Offer.bonus_amount ∧
      c8Offer.expires_at = 0 + 2 * 3600 ∧
      c8Offer.status = OfferStatus.pending) ∧
    c8Offer.total_earnings = 23 :=
  ⟨create_match_offers_earnings_expiry "high" 20 [7] 0 2 c8Offer
    (List.mem_singleton.mpr rfl),
   by norm_num [c8Offer, offerIncentive]⟩

/-- C4: a driver with no known location scores 0, but for every driver WITH a
known location `_calculate_distance_score` raises the `AttributeError` from
reading `booking.pickup_lat` / `booking.pickup_lng` and never returns any
score, let alone the haversine band; the band the method was written to
apply (≤1km→100, ≤3km→90, ≤5km→75, ≤10km→50, ≤15km→25, else 0) is
monotonically non-increasing in the distance, as the claim intends. -/
theorem distance_score_band_antitone :
    (∀ pickup_latitude pickup_longitude : ℝ,
      _calculate_distance_score none pickup_latitude pickup_longitude =
        Except.ok 0) ∧
    (∀ (loc : ℝ × ℝ) (pickup_latitude pickup_longitude : ℝ),
      _calculate_distance_score (some loc) pickup_latitude pickup_longitude =
        Except.error
          "AttributeError: 'PreBookedRide' object has no attribute 'pickup_lat'") ∧
    (∀ (loc : ℝ × ℝ) (pickup_latitude pickup_longitude score : ℝ),
      _calculate_distance_score (some loc) pickup_latitude pickup_longitude ≠
        Except.ok score) ∧
    (∀ d1 d2 : ℝ, d1 ≤ d2 → distanceBand d2 ≤ distanceBand d1) := by
  refine ⟨fun _ _ => rfl, fun _ _ _ => rfl, ?_, ?_⟩
  · intro loc pickup_latitude pickup_longitude score
    simp [_calculate_distance_score]
  · intro d1 d2 h
    unfold distanceBand
    split_ifs <;> linarith

/-- C4 witness: a located driver at Lisbon-like coordinates hits the
`AttributeError` instead of a score, and on the intended band a driver half a
km from pickup (100) scores at least as well as one 12 km away (25). -/
theorem distance_score_band_antitone_witness :
    _calculate_distance_score (some (38.74, -9.15)) 38.72 (-9.14) =
      Except.error
        "AttributeError: 'PreBookedRide' object has no attribute 'pickup_lat'" ∧
    distanceBand 12 ≤ distanceBand (1 / 2) :=
  ⟨distance_score_band_antitone.2.1 (38.74, -9.15) 38.72 (-9.14),
   distance_score_band_antitone.2.2.2 (1 / 2) 12 (by norm_num)⟩

/-- Binding after a raised exception propagates the exception. -/
theorem error_bind {α β : Type} (e : String) (f : α → Except String β) :
    (Except.error e >>= f : Except String β) = Except.error e := rfl

/-- C6: the first three availability gates short-circuit in the documented
order with their reasons (no calendar entry; entry not available; requested
window outside working hours), but every call that passes them raises the
`TypeError` from `_check_booking_conflicts` instead of evaluating the
remaining gates — so `check_driver_availability` can never return
`(True, None)`. -/
theorem check_driver_availability_gate_order :
    (∀ (bookings : List AssignedBooking) (pickup dur : Int),
      check_driver_availability none bookings pickup dur =
        Except.ok (false, some "Driver has not set availability for this date")) ∧
    (∀ (cal : DriverCalendar) (bookings : List AssignedBooking) (pickup dur : Int),
      cal.is_available = false →
      check_driver_availability (some cal) bookings pickup dur =
        Except.ok (false, some "Driver is not available on this date")) ∧
    (∀ (cal : DriverCalendar) (bookings : List AssignedBooking) (pickup dur : Int),
      cal.is_available = true → timeOf pickup < cal.start_time →
      check_driver_availability (some cal) bookings pickup dur =
        Except.ok (false, some "Pickup time is before driver's start time")) ∧
    (∀ (cal : DriverCalendar) (bookings : List AssignedBooking) (pickup dur : Int),
      cal.is_available = true → ¬ timeOf pickup < cal.start_time →
      timeOf (pickup + dur) > cal.end_time →
      check_driver_availability (some cal) bookings pickup dur =
        Except.ok (false, some "Ride would end after driver's end time")) ∧
    (∀ (cal : DriverCalendar) (bookings : List AssignedBooking) (pickup dur : Int),
      cal.is_available = true → ¬ timeOf pickup < cal.start_time →
      ¬ timeOf (pickup + dur) > cal.end_time →
      check_driver_availability (some cal) bookings pickup dur =
        Except.error
          "TypeError: unsupported type for timedelta minutes component: CombinedExpression") ∧
    (∀ (entry : Option DriverCalendar) (bookings : List AssignedBooking)
        (pickup dur : Int) (r : Option String),
      check_driver_availability entry bookings pickup dur ≠ Except.ok (true, r)) := by
  refine ⟨?_, ?_, ?_, ?_, ?_, ?_⟩
  · intro bookings pickup dur
    rfl
  · intro cal bookings pickup dur hav
    simp [check_driver_availability, hav]
  · intro cal bookings pickup dur hav hstart
    simp [check_driver_availability, hav, hstart]
  · intro cal bookings pickup dur hav hstart hend
    simp [check_driver_availability, hav, hstart, hend]
  · intro cal bookings pickup dur hav hstart hend
    simp [check_driver_availability, hav, hstart, hend, _check_booking_conflicts,
      error_bind]
  · intro entry bookings pickup dur r
    cases entry with
    | none => simp [check_driver_availability]
    | some cal =>
      by_cases hav : cal.is_available = false
      · simp [check_driver_availability, hav]
      · by_cases hstart : timeOf pickup < cal.start_time
        · simp [check_driver_availability, hav, hstart,
            (by revert hav; cases cal.is_available <;> simp :
              cal.is_available = true)]
        · by_cases hend : timeOf (pickup + dur) > cal.end_time
          · simp [check_driver_availability, hav, hstart, hend,
              (by revert hav; cases cal.is_available <;> simp :
                cal.is_available = true)]
          · simp [check_driver_availability, hav, hstart, hend,
              _check_booking_conflicts, error_bind,
              (by revert hav; cases cal.is_available <;> simp :
                cal.is_available = true)]

/-- C6 witness: a concrete available 07:00–22:00 calendar entry with a
mid-morning one-hour ride passes the first three gates and hits the
`TypeError` raised while the booking-conflict query is built. -/
theorem check_driver_availability_gate_order_witness :
    check_driver_availability (some ⟨true, 420, 1320, [], 10, 0, none, 0⟩) [] 600 60 =
      Except.error
        "TypeError: unsupported type for timedelta minutes component: CombinedExpression" :=
  check_driver_availability_gate_order.2.2.2.2.1
    ⟨true, 420, 1320, [], 10, 0, none, 0⟩ [] 600 60 rfl (by decide) (by decide)

/-- C2: a response to an offer that is no longer `pending`, or whose
`expires_at` is strictly in the past, fails with `False` and leaves the whole
ride/offer state — offer rows, ride status, driver assignment — untouched,
for an accept and for a decline alike. -/
theorem handle_offer_response_stale_noop (s : MatchState) (oid : Nat)
    (accepted : Bool) (reason : String) (now : Int)
    (new_matches : List RideMatchOffer) (off : RideMatchOffer)
    (hfind : s.offers.find? (fun o => o.id == oid) = some off)
    (hstale : off.status ≠ OfferStatus.pending ∨ off.expires_at < now) :
    handle_offer_response s oid accepted reason now new_matches =
      ⟨s, false, false⟩ := by
  unfold handle_offer_response
  rw [hfind]
  exact if_pos hstale

/-- C2 witness: declining and accepting an offer 40 seconds past its expiry
both return failure and change nothing. -/
theorem handle_offer_response_stale_noop_witness :
    handle_offer_response
        ⟨RideStatus.pending, none,
          [⟨1, 5, OfferStatus.pending, 10, none, 20, 0, 20, ""⟩]⟩
        1 true "" 50 [] =
      ⟨⟨RideStatus.pending, none,
          [⟨1, 5, OfferStatus.pending, 10, none, 20, 0, 20, ""⟩]⟩,
        false, false⟩ ∧
    handle_offer_response
        ⟨RideStatus.pending, none,
          [⟨1, 5, OfferStatus.pending, 10, none, 20, 0, 20, ""⟩]⟩
        1 false "declined" 50 [] =
      ⟨⟨RideStatus.pending, none,
          [⟨1, 5, OfferStatus.pending, 10, none, 20, 0, 20, ""⟩]⟩,
        false, false⟩ :=
  ⟨handle_offer_response_stale_noop _ 1 true "" 50 []
      ⟨1, 5, OfferStatus.pending, 10, none, 20, 0, 20, ""⟩ rfl
      (Or.inr (by decide)),
   handle_offer_response_stale_noop _ 1 false "declined" 50 []
      ⟨1, 5, OfferStatus.pending, 10, none, 20, 0, 20, ""⟩ rfl
      (Or.inr (by decide))⟩

/-- C10: expiry is strict — an offer responded to at the exact instant
`now = expires_at` is still valid: `is_expired` is false, a decline succeeds,
and an accept succeeds whenever the ride is still pending, so the stale-offer
failure path is not taken. -/
theorem offer_valid_at_exact_expiry (s : MatchState) (oid : Nat)
    (reason : String) (now : Int) (new_matches : List RideMatchOffer)
    (off : RideMatchOffer)
    (hfind : s.offers.find? (fun o => o.id == oid) = some off)
    (hpend : off.status = OfferStatus.pending)
    (hexp : off.expires_at = now) :
    off.is_expired now = false ∧
    (s.ride_status = RideStatus.pending →
      (handle_offer_response s oid true reason now new_matches).success = true) ∧
    (handle_offer_response s oid false reason now new_matches).success = true := by
  have hguard : ¬(off.status ≠ OfferStatus.pending ∨ off.expires_at < now) := by
    simp [hpend, hexp]
  refine ⟨by simp [RideMatchOffer.is_expired, hexp], ?_, ?_⟩
  · intro hride
    unfold handle_offer_response
    rw [hfind]
    simp [hguard, hride]
  · unfold handle_offer_response
    rw [hfind]
    simp only [hguard, if_false, Bool.false_eq_true]
    simp [hguard]
    split <;> rfl

/-- C10 witness: an offer whose `expires_at` equals the response instant is
not expired and its decline succeeds. -/
theorem offer_valid_at_exact_expiry_witness :
    RideMatchOffer.is_expired ⟨1, 5, OfferStatus.pending, 50, none, 20, 0, 20, ""⟩ 50 =
        false ∧
    ((⟨RideStatus.pending, none,
        [⟨1, 5, OfferStatus.pending, 50, none, 20, 0, 20, ""⟩]⟩ : MatchState).ride_status =
          RideStatus.pending →
      (handle_offer_response
          ⟨RideStatus.pending, none,
            [⟨1, 5, OfferStatus.pending, 50, none, 20, 0, 20, ""⟩]⟩
          1 true "" 50 []).success = true) ∧
    (handle_offer_response
        ⟨RideStatus.pending, none,
          [⟨1, 5, OfferStatus.pending, 50, none, 20, 0, 20, ""⟩]⟩
        1 false "" 50 []).success = true :=
  offer_valid_at_exact_expiry _ 1 "" 50 []
    ⟨1, 5, OfferStatus.pending, 50, none, 20, 0, 20, ""⟩ rfl rfl rfl

/-- After `RideMatchOffer.decline` runs, no `pending` offer remains exactly
when every offer other than the declined one was already non-pending —
independently of any `expires_at`. -/
theorem declineOffer_countP_pending_zero (offers : List RideMatchOffer)
    (oid : Nat) (now : Int) (reason : String) :
    ((declineOffer offers oid now reason).countP
        (fun o => o.status == OfferStatus.pending) = 0) ↔
      (∀ o ∈ offers, o.id ≠ oid → o.status ≠ OfferStatus.pending) := by
  unfold declineOffer
  rw [List.countP_map, List.countP_eq_zero]
  constructor
  · intro h o ho hid
    have hx := h o ho
    simp [Function.comp, hid] at hx
    exact hx
  · intro h o ho
    simp only [Function.comp]
    by_cases hid : o.id = oid
    · simp [hid]
    · simp [hid]
      exact h o ho hid

/-- C5 counterexample: ride with two recorded-`pending` offers, offer 1 live
(expires at 100) and offer 2 already past its expiry (expires at 10 < now =
50).  Declining offer 1 — the last live offer — does NOT trigger
`_create_next_batch_offers`, because the stale offer still counts toward the
remaining-pending total. -/
theorem stale_pending_counts_counterexample :
    (RideMatchOffer.is_expired ⟨2, 6, OfferStatus.pending, 10, none, 20, 0, 20, ""⟩ 50 =
        true) ∧
    (handle_offer_response
        ⟨RideStatus.pending, none,
          [⟨1, 5, OfferStatus.pending, 100, none, 20, 0, 20, ""⟩,
           ⟨2, 6, OfferStatus.pending, 10, none, 20, 0, 20, ""⟩]⟩
        1 false "" 50 []).rebatched = false := by
  constructor
  · rfl
  · rfl

/-- C5 as amended: the remaining-offer count of the decline path looks only
at recorded status, so a stale `pending` offer whose `expires_at` has passed
still counts; `_create_next_batch_offers` is triggered exactly when no offer
with recorded status `pending` remains after the decline, whatever the
expiry instants. -/
theorem decline_rebatch_iff_no_recorded_pending (s : MatchState) (oid : Nat)
    (reason : String) (now : Int) (new_matches : List RideMatchOffer)
    (off : RideMatchOffer)
    (hfind : s.offers.find? (fun o => o.id == oid) = some off)
    (hpend : off.status = OfferStatus.pending)
    (hlive : ¬ off.expires_at < now) :
    ((handle_offer_response s oid false reason now new_matches).rebatched = true ↔
      ∀ o ∈ s.offers, o.id ≠ oid → o.status ≠ OfferStatus.pending) := by
  have hguard : ¬(off.status ≠ OfferStatus.pending ∨ off.expires_at < now) := by
    simp [hpend, hlive]
  have hiff := declineOffer_countP_pending_zero s.offers oid now reason
  unfold handle_offer_response
  rw [hfind]
  simp only [hguard, if_false, Bool.false_eq_true]
  by_cases h0 : (declineOffer s.offers oid now reason).countP
      (fun o => o.status == OfferStatus.pending) = 0
  · simp [h0]
    exact hiff.mp h0
  · simp [h0]
    have hne : ¬ ∀ o ∈ s.offers, o.id ≠ oid → o.status ≠ OfferStatus.pending :=
      fun hc => h0 (hiff.mpr hc)
    simpa using hne

/-- C5 amended witness: with a single live pending offer and no stale
sibling, declining it does trigger the next offer batch. -/
theorem decline_rebatch_iff_no_recorded_pending_witness :
    (handle_offer_response
        ⟨RideStatus.pending, none,
          [⟨1, 5, OfferStatus.pending, 100, none, 20, 0, 20, ""⟩]⟩
        1 false "" 50 []).rebatched = true :=
  (decline_rebatch_iff_no_recorded_pending
      ⟨RideStatus.pending, none,
        [⟨1, 5, OfferStatus.pending, 100, none, 20, 0, 20, ""⟩]⟩
      1 "" 50 [] ⟨1, 5, OfferStatus.pending, 100, none, 20, 0, 20, ""⟩ rfl rfl
      (by decide)).mpr (by decide)

/-- In a list of offers with pairwise-distinct ids, at most one offer
carries any given id. -/
theorem countP_id_le_one_of_nodup (l : List RideMatchOffer) (oid : Nat)
    (h : (l.map RideMatchOffer.id).Nodup) :
    l.countP (fun o => o.id == oid) ≤ 1 := by
  induction l with
  | nil => simp
  | cons a t ih =>
    rw [List.map_cons, List.nodup_cons] at h
    rw [List.countP_cons]
    by_cases hid : a.id = oid
    · have ht0 : t.countP (fun o => o.id == oid) = 0 := by
        rw [List.countP_eq_zero]
        intro o ho
        simp only [beq_iff_eq]
        intro hc
        apply h.1
        rw [hid, ← hc]
        exact List.mem_map_of_mem RideMatchOffer.id ho
      simp [ht0, hid]
    · simp [hid]
      exact ih h.2

/-- A successful accept fully determines the outcome: the offer was found
pending and unexpired, the ride was still pending, and the new state is the
assigned state with the accept cascade applied to the offer list. -/
theorem handle_accept_success_eq (s : MatchState) (oid : Nat) (reason : String)
    (now : Int) (new_matches : List RideMatchOffer)
    (hsucc : (handle_offer_response s oid true reason now new_matches).success = true) :
    ∃ off, s.offers.find? (fun o => o.id == oid) = some off ∧
      off.status = OfferStatus.pending ∧ s.ride_status = RideStatus.pending ∧
      handle_offer_response s oid true reason now new_matches =
        ⟨⟨RideStatus.driver_assigned, some off.driver_id,
            expireRemainingPending (acceptCascade s.offers oid now) oid⟩,
          true, false⟩ := by
  unfold handle_offer_response at hsucc ⊢
  cases hf : s.offers.find? (fun o => o.id == oid) with
  | none =>
    rw [hf] at hsucc
    simp at hsucc
  | some off =>
    rw [hf] at hsucc
    by_cases hguard : off.status ≠ OfferStatus.pending ∨ off.expires_at < now
    · simp [hguard] at hsucc
    · by_cases hride : s.ride_status ≠ RideStatus.pending
      · simp [hguard, hride] at hsucc
      · refine ⟨off, rfl, not_not.mp (not_or.mp hguard).1, not_not.mp hride, ?_⟩
        simp [hguard, hride]

/-- Mapping a status transformation that never produces `accepted` cannot
increase the number of accepted offers. -/
theorem countP_accepted_map_le (l : List RideMatchOffer)
    (f : RideMatchOffer → RideMatchOffer)
    (hf : ∀ o ∈ l, (f o).status = OfferStatus.accepted →
      o.status = OfferStatus.accepted) :
    (l.map f).countP (fun o => o.status == OfferStatus.accepted) ≤
      l.countP (fun o => o.status == OfferStatus.accepted) := by
  rw [List.countP_map]
  apply List.countP_mono_left
  intro o ho
  simp only [Function.comp, beq_iff_eq]
  exact hf o ho

/-- C1: whenever an accept succeeds, the ride moves to `driver_assigned`
with the accepting offer's driver, the accepted offer row is saved as
`accepted`, and every other offer that was `pending` is saved as `withdrawn`,
all in the same atomic step; and every `handle_offer_response` call preserves
the at-most-one-accepted invariant, so two offers of one ride are never both
`accepted`. -/
theorem handle_offer_response_one_winner :
    (∀ (s : MatchState) (oid : Nat) (reason : String) (now : Int)
        (new_matches : List RideMatchOffer),
      (handle_offer_response s oid true reason now new_matches).success = true →
      (handle_offer_response s oid true reason now new_matches).state.ride_status =
          RideStatus.driver_assigned ∧
      (∃ off ∈ s.offers, off.id = oid ∧ off.status = OfferStatus.pending ∧
        (handle_offer_response s oid true reason now new_matches).state.assigned_driver =
          some off.driver_id) ∧
      (∀ o ∈ s.offers, o.id = oid →
        { o with status := OfferStatus.accepted, responded_at := some now } ∈
          (handle_offer_response s oid true reason now new_matches).state.offers) ∧
      (∀ o ∈ s.offers, o.id ≠ oid → o.status = OfferStatus.pending →
        { o with status := OfferStatus.withdrawn } ∈
          (handle_offer_response s oid true reason now new_matches).state.offers)) ∧
    (∀ (s : MatchState) (oid : Nat) (accepted : Bool) (reason : String)
        (now : Int) (new_matches : List RideMatchOffer),
      OffersInv s → (s.offers.map RideMatchOffer.id).Nodup →
      OffersInv (handle_offer_response s oid accepted reason now new_matches).state) := by
  constructor
  · intro s oid reason now new_matches hsucc
    obtain ⟨off, hf, hoffpend, hride, heq⟩ :=
      handle_accept_success_eq s oid reason now new_matches hsucc
    rw [heq]
    refine ⟨rfl, ⟨off, List.mem_of_find?_eq_some hf, ?_, hoffpend, rfl⟩, ?_, ?_⟩
    · have := List.find?_some hf
      simpa using this
    · intro o ho hid
      simp only [expireRemainingPending, acceptCascade, List.map_map]
      refine List.mem_map.mpr ⟨o, ho, ?_⟩
      simp [Function.comp, hid]
    · intro o ho hid hpend
      simp only [expireRemainingPending, acceptCascade, List.map_map]
      refine List.mem_map.mpr ⟨o, ho, ?_⟩
      simp [Function.comp, hid, hpend]
  · intro s oid accepted reason now new_matches hinv hnodup
    unfold handle_offer_response
    cases hf : s.offers.find? (fun o => o.id == oid) with
    | none => simpa using hinv
    | some off =>
      simp only []
      by_cases hguard : off.status ≠ OfferStatus.pending ∨ off.expires_at < now
      · simp only [if_pos hguard]
        simpa using hinv
      · rw [if_neg hguard]
        cases accepted with
        | true =>
          by_cases hrna : s.ride_status ≠ RideStatus.pending
          · simp only [if_pos rfl, if_pos hrna]
            constructor
            · intro hp o ho
              obtain ⟨x, hx, rfl⟩ := List.mem_map.mp ho
              by_cases hxid : x.id = oid
              · simp [hxid]
              · simp only [if_neg hxid]
                exact hinv.1 hp x hx
            · refine le_trans (countP_accepted_map_le s.offers _ ?_) hinv.2
              intro o ho hacc
              by_cases hid : o.id = oid
              · simp [hid] at hacc
              · simpa [hid] using hacc
          · have hridep : s.ride_status = RideStatus.pending := not_not.mp hrna
            have hnone : ∀ o ∈ s.offers, o.status ≠ OfferStatus.accepted :=
              hinv.1 hridep
            simp only [if_pos rfl, if_neg hrna]
            constructor
            · intro hp
              exact absurd hp (by simp)
            · show (expireRemainingPending (acceptCascade s.offers oid now)
                  oid).countP (fun o => o.status == OfferStatus.accepted) ≤ 1
              simp only [expireRemainingPending, acceptCascade, List.map_map]
              refine le_trans ?_ (countP_id_le_one_of_nodup s.offers oid hnodup)
              rw [List.countP_map]
              apply List.countP_mono_left
              intro o ho
              simp only [Function.comp, beq_iff_eq]
              intro hacc
              by_cases hid : o.id = oid
              · simpa using hid
              · exfalso
                by_cases hpend : o.status = OfferStatus.pending
                · simp [hid, hpend] at hacc
                · simp [hid, hpend] at hacc
                  exact hnone o ho hacc
        | false =>
          simp only [Bool.false_eq_true, if_false]
          have hle1 : (declineOffer s.offers oid now reason).countP
              (fun o => o.status == OfferStatus.accepted) ≤
              s.offers.countP (fun o => o.status == OfferStatus.accepted) := by
            apply countP_accepted_map_le
            intro o ho hacc
            by_cases hid : o.id = oid
            · simp [hid] at hacc
            · simpa [hid] using hacc
          have hnone1 : s.ride_status = RideStatus.pending →
              ∀ o ∈ declineOffer s.offers oid now reason,
                o.status ≠ OfferStatus.accepted := by
            intro hp o ho
            obtain ⟨x, hx, rfl⟩ := List.mem_map.mp ho
            by_cases hid : x.id = oid
            · simp [hid]
            · simp only [if_neg hid]
              exact hinv.1 hp x hx
          split
          · unfold _create_next_batch_offers
            split
            · exact ⟨fun hp => absurd hp (by simp), le_trans hle1 hinv.2⟩
            · constructor
              · intro hp o ho
                rcases List.mem_append.mp ho with hin | hin
                · exact hnone1 hp o hin
                · obtain ⟨x, _, rfl⟩ := List.mem_map.mp hin
                  simp
              · rw [List.countP_append]
                have hz : (new_matches.map
                    (fun o => { o with status := OfferStatus.pending })).countP
                    (fun o => o.status == OfferStatus.accepted) = 0 := by
                  rw [List.countP_eq_zero]
                  intro o ho
                  obtain ⟨x, _, rfl⟩ := List.mem_map.mp ho
                  simp
                rw [hz]
                simpa using le_trans hle1 hinv.2
          · exact ⟨hnone1, le_trans hle1 hinv.2⟩

/-- C1 witness: accepting the first of two pending offers preserves the
at-most-one-accepted invariant on a concrete two-offer ride. -/
theorem handle_offer_response_one_winner_witness :
    OffersInv (handle_offer_response
        ⟨RideStatus.pending, none,
          [⟨1, 5, OfferStatus.pending, 100, none, 20, 0, 20, ""⟩,
           ⟨2, 6, OfferStatus.pending, 100, none, 20, 0, 20, ""⟩]⟩
        1 true "" 50 []).state :=
  handle_offer_response_one_winner.2
    ⟨RideStatus.pending, none,
      [⟨1, 5, OfferStatus.pending, 100, none, 20, 0, 20, ""⟩,
       ⟨2, 6, OfferStatus.pending, 100, none, 20, 0, 20, ""⟩]⟩
    1 true "" 50 [] (by decide) (by decide)

end RideConnect
